/-
Verification of the curation data pipeline of the feedback-ai-prototype
repository (admin_app.py and new.py).

The pipeline's logic is pure list/string manipulation over JSON records
stored in a key-value blob store.  External collaborators (the blob store
listing/reading, the generative-model client) are modelled as explicit
inputs: a listing outcome is an Except value, a read is a function from
keys to optional records, and the model call is parametrised by the chunks
the streaming endpoint delivered and by the outcome of the non-streaming
fallback request.

Python string operations are embedded as structurally recursive functions
over the character list of a String, so that every definition evaluates by
kernel reduction:
  * pyStrip       models str.strip()
  * pyLower       models str.lower()  (ASCII range, as in the data at hand)
  * pyIn          models the substring test (needle in haystack)
  * pySplit       models str.split("/")
  * pySplit2      models str.split("/", 2)
  * pyEndsWith    models str.endswith(suffix)
  * pyLe          models string <= (lexicographic by code point)
-/

import Mathlib

namespace FeedbackPipeline

/-- Whitespace test used by str.strip(); the ASCII whitespace characters. -/
def isWs (c : Char) : Bool :=
  c == ' ' || c == '\t' || c == '\n' || c == '\r'

/-- Python str.strip(): drop whitespace from both ends. -/
def pyStrip (s : String) : String :=
  String.mk (((s.data.dropWhile isWs).reverse.dropWhile isWs).reverse)

/-- ASCII lower-casing of one character, as CPython does for A-Z. -/
def lowerChar (c : Char) : Char :=
  if 65 ≤ c.toNat ∧ c.toNat ≤ 90 then Char.ofNat (c.toNat + 32) else c

/-- Python str.lower() on the character list. -/
def pyLower (s : String) : String :=
  String.mk (s.data.map lowerChar)

/-- Does the first character list occur at the head of the second? -/
def startsWithL : List Char → List Char → Bool
  | [], _ => true
  | _ :: _, [] => false
  | x :: xs, y :: ys => x == y && startsWithL xs ys

/-- Does the first character list occur contiguously inside the second? -/
def infixOfL : List Char → List Char → Bool
  | n, [] => n.isEmpty
  | n, h :: t => startsWithL n (h :: t) || infixOfL n t

/-- Python substring test: needle in haystack. -/
def pyIn (needle hay : String) : Bool :=
  infixOfL needle.data hay.data

/-- Split a character list at every occurrence of the separator. -/
def splitChars (sep : Char) : List Char → List (List Char)
  | [] => [[]]
  | c :: cs =>
    if c = sep then [] :: splitChars sep cs
    else
      match splitChars sep cs with
      | [] => [[c]]
      | h :: t => (c :: h) :: t

/-- Python str.split("/"): unlimited splitting on the slash. -/
def pySplit (s : String) : List String :=
  (splitChars '/' s.data).map String.mk

/-- Join a list of segments with slashes (inverse of pySplit on its image). -/
def joinSlash : List String → String
  | [] => ""
  | [x] => x
  | x :: y :: t => x ++ "/" ++ joinSlash (y :: t)

/-- Python str.split("/", 2): at most two splits, remainder kept whole. -/
def pySplit2 (s : String) : List String :=
  let ps := pySplit s
  if ps.length ≤ 3 then ps else ps.take 2 ++ [joinSlash (ps.drop 2)]

/-- Python str.endswith(suffix). -/
def pyEndsWith (s suf : String) : Bool :=
  startsWithL suf.data.reverse s.data.reverse

/-- Lexicographic comparison of character lists by code point,
as Python compares strings. -/
def strLeB : List Char → List Char → Bool
  | [], _ => true
  | _ :: _, [] => false
  | a :: as, b :: bs =>
    if a.toNat < b.toNat then true
    else if b.toNat < a.toNat then false
    else strLeB as bs

/-- Python string comparison a <= b. -/
def pyLe (a b : String) : Bool := strLeB a.data b.data

/-- Descending order relation on strings: b <= a in Python order. -/
def descLe (a b : String) : Prop := pyLe b a = true

instance : DecidableRel descLe := fun a b => instDecidableEqBool (pyLe b a) true

/-- Stable sort in descending lexical order, modelling keys.sort(reverse=True). -/
def sortDesc (l : List String) : List String := List.insertionSort descLe l

/-- Calendar date as year, month, day numbers (the datetime.date inputs of the
filter functions). -/
structure DateYMD where
  year : Nat
  month : Nat
  day : Nat
deriving DecidableEq, Repr

/-- The decimal digit character of n % 10. -/
def digitChar (n : Nat) : Char :=
  match n % 10 with
  | 0 => '0' | 1 => '1' | 2 => '2' | 3 => '3' | 4 => '4'
  | 5 => '5' | 6 => '6' | 7 => '7' | 8 => '8' | _ => '9'

/-- Zero-padded two-digit rendering, as strftime %m and %d produce. -/
def pad2 (n : Nat) : String :=
  String.mk [digitChar (n / 10), digitChar n]

/-- Zero-padded four-digit rendering, as strftime %Y produces. -/
def pad4 (n : Nat) : String :=
  String.mk [digitChar (n / 1000), digitChar (n / 100), digitChar (n / 10), digitChar n]

/-- strftime("%Y-%m-%d"): fixed-width ISO date string. -/
def DateYMD.fmt (d : DateYMD) : String :=
  pad4 d.year ++ "-" ++ pad2 d.month ++ "-" ++ pad2 d.day

/-- Lexicographic order on dates. -/
def DateYMD.le (a b : DateYMD) : Prop :=
  a.year < b.year ∨ (a.year = b.year ∧
    (a.month < b.month ∨ (a.month = b.month ∧ a.day ≤ b.day)))

instance (a b : DateYMD) : Decidable (a.le b) := by
  unfold DateYMD.le; infer_instance

/-- An Entry record as stored in the blob store: the JSON object's fields.
Fields are Option-valued; none models a key that is absent from the JSON
object (or explicitly null).  tagBucket and tagKey stand for the "_bucket"
and "_key" keys that load_entries adds to each loaded dict. -/
structure Entry where
  timestamp : Option String
  prompt : Option String
  ai_response : Option String
  approved_response : Option String
  approved_by : Option String
  approved_at : Option String
  review_notes : Option String
  used_model : Option String
  source_raw_bucket : Option String
  source_raw_key : Option String
  tagBucket : Option String
  tagKey : Option String
deriving DecidableEq, Repr

/-- The Entry with every field absent. -/
def Entry.empty : Entry :=
  ⟨none, none, none, none, none, none, none, none, none, none, none, none⟩

/-- Python e.get(field) or "" on an optional string field: absent (or null)
and empty both collapse to the empty string. -/
def getS (o : Option String) : String := o.getD ""

/-- Python a or b where a is an optional string and b a string: a is kept
exactly when it is present and non-empty (truthy). -/
def pyOr (a : Option String) (b : String) : String :=
  match a with
  | some s => if s = "" then b else s
  | none => b

/-- key_date (admin_app.py line 180, new.py line 93): the second
slash-delimited segment of a key when it has at least three segments,
the empty string otherwise. -/
def key_date (key : String) : String :=
  match pySplit key with
  | _ :: d :: _ :: _ => d
  | _ => ""

/-- filter_keys_by_date (admin_app.py line 187, new.py line 100): format the
two dates with strftime and keep the keys whose key_date is truthy and lies
between them in string order.  The loop of new.py and the comprehension of
admin_app.py compute the same list. -/
def filter_keys_by_date (keys : List String) (start stop : DateYMD) : List String :=
  let s := start.fmt
  let e := stop.fmt
  match keys with
  | [] => []
  | k :: ks =>
    let kd := key_date k
    if kd ≠ "" ∧ pyLe s kd = true ∧ pyLe kd e = true then
      k :: filter_keys_by_date ks start stop
    else
      filter_keys_by_date ks start stop

/-- contains_keyword (admin_app.py line 212, new.py line 178): an empty
keyword matches everything; otherwise the lower-cased keyword is searched in
each of the four fields prompt, ai_response, approved_response, review_notes
in turn, each lower-cased, absent fields read as the empty string. -/
def contains_keyword (e : Entry) (kw : String) : Bool :=
  if kw = "" then true
  else
    let k := pyLower kw
    pyIn k (pyLower (getS e.prompt)) ||
    pyIn k (pyLower (getS e.ai_response)) ||
    pyIn k (pyLower (getS e.approved_response)) ||
    pyIn k (pyLower (getS e.review_notes))

/-- The keyword filtering step as the callers run it (admin_app.py line 352,
new.py line 273): the comprehension keeping the entries that contain the
keyword. -/
def filter_by_keyword (entries : List Entry) (kw : String) : List Entry :=
  entries.filter (fun e => contains_keyword e kw)

/-- load_entries (admin_app.py line 192, new.py line 110): read each key via
the store (a read failure yields none and the key is skipped), and tag the
loaded record with its origin bucket and key in the "_bucket" and "_key"
fields. -/
def load_entries (bucket : String) (fetch : String → Option Entry) :
    List String → List Entry
  | [] => []
  | k :: ks =>
    match fetch k with
    | some d =>
      { d with tagBucket := some bucket, tagKey := some k } ::
        load_entries bucket fetch ks
    | none => load_entries bucket fetch ks

/-- curated_key_from_raw (admin_app.py line 204, new.py line 123): split the
raw key on "/" with maxsplit 2; with three parts, re-parent onto the curated
namespace keeping date and filename; otherwise mint a fresh key from the
current UTC day and a fresh uuid hex id (passed in as today and freshId,
since they are read from the clock and the RNG). -/
def curated_key_from_raw (curNs raw_key today freshId : String) : String :=
  let parts := pySplit2 raw_key
  if 3 ≤ parts.length then
    curNs ++ "/" ++ parts.getD 1 "" ++ "/" ++ parts.getD 2 ""
  else
    curNs ++ "/" ++ today ++ "/" ++ freshId ++ ".json"

/-- list_keys of admin_app.py (line 166): empty bucket or namespace gives [];
a successful listing is filtered to names ending in ".json" and sorted in
reverse; a listing failure is caught and turned into an empty list plus a
surfaced warning message (the second component). -/
def list_keys (bucket ns : String) (res : Except String (List String)) :
    List String × Option String :=
  if bucket = "" ∨ ns = "" then ([], none)
  else
    match res with
    | .ok blobs => (sortDesc (blobs.filter (fun n => pyEndsWith n ".json")), none)
    | .error e => ([], some e)

/-- list_keys of new.py (line 83): same listing, filtering and sorting, but
with no try/except around the store call: a listing failure propagates to
the caller as an exception. -/
def list_keys_new (bucket ns : String) (res : Except String (List String)) :
    Except String (List String) :=
  if bucket = "" ∨ ns = "" then .ok []
  else
    match res with
    | .ok blobs => .ok (sortDesc (blobs.filter (fun n => pyEndsWith n ".json")))
    | .error e => .error e

/-- A JSON value, for stating the exact shape of emitted training records. -/
inductive J where
  | str (s : String)
  | arr (l : List J)
  | obj (l : List (String × J))

/-- The two-turn training record built by to_jsonl_lines for one entry. -/
def trainRecord (prompt out : String) : J :=
  .obj [("contents", .arr [
    .obj [("role", .str "user"), ("parts", .arr [.obj [("text", .str prompt)]])],
    .obj [("role", .str "model"), ("parts", .arr [.obj [("text", .str out)]])]])]

/-- to_jsonl_lines (admin_app.py line 222, new.py line 138): per entry, the
prompt is the stripped prompt field, the output is the stripped value of
approved_response-or-ai_response-or-""; entries with an empty prompt or an
empty output are skipped, every other entry contributes one record, in input
order. -/
def to_jsonl_lines : List Entry → List J
  | [] => []
  | e :: rest =>
    let prompt := pyStrip (getS e.prompt)
    let out := pyStrip (pyOr e.approved_response (pyOr e.ai_response ""))
    if prompt = "" ∨ out = "" then to_jsonl_lines rest
    else trainRecord prompt out :: to_jsonl_lines rest

/-- The metadata dict of call_model: blocked flag and reason string. -/
structure GenMeta where
  blocked : Bool
  reason : String
deriving DecidableEq, Repr

/-- The streaming half of call_model (admin_app.py lines 119-133): the chunk
texts the endpoint delivered before finishing or raising (a chunk with no
text is none and is not appended), joined and stripped. -/
def streamText (delivered : List (Option String)) : String :=
  let chunks := delivered.filterMap (fun o => o.bind
    (fun s => if s = "" then none else some s))
  pyStrip (chunks.foldr (· ++ ·) "")

/-- call_model (admin_app.py line 102).  The streaming attempt is modelled by
the delivered chunks and by whether the stream raised (the except swallows
the exception, keeping the chunks already collected, so the flag does not
influence the result).  The non-streaming fallback request is modelled by
its outcome: an exception or the extracted (text, blocked, reason) triple.
The result pairs the caller-visible outcome with the number of fallback
requests actually issued. -/
def call_model (delivered : List (Option String)) (_streamRaised : Bool)
    (fallback : Except String (String × Bool × String)) :
    Except String (String × GenMeta) × Nat :=
  let text := streamText delivered
  if text ≠ "" then (.ok (text, ⟨false, ""⟩), 0)
  else
    match fallback with
    | .error err => (.error err, 1)
    | .ok (t, b, r) => (.ok (t, ⟨b, r⟩), 1)

/-- The save action of the review tab (admin_app.py lines 391-404, new.py
lines 312-325): build the out dict by spreading the loaded item and
overriding the approval fields, derive the curated key from the item's
"_key" tag, and upload.  The returned pair is the (key, record) write that
is performed; no validation precedes the write. -/
def tab_review_save (item : Entry) (approved_text notes ts curNs today freshId : String) :
    String × Entry :=
  let out : Entry :=
    { item with
        approved_response := some (pyStrip approved_text)
        approved_by := some "admin"
        approved_at := some ts
        review_notes := some notes
        source_raw_bucket := item.tagBucket
        source_raw_key := item.tagKey }
  (curated_key_from_raw curNs (getS item.tagKey) today freshId, out)

/-- The save action of the generation tab (admin_app.py lines 307-326, new.py
lines 229-248): build a fresh record and upload it under a freshly minted
key; no validation precedes the write. -/
def tab_gen_save (prompt ai_text approved endpoint ts day freshId curNs : String) :
    String × Entry :=
  let out : Entry :=
    { Entry.empty with
        timestamp := some ts
        prompt := some prompt
        ai_response := some ai_text
        approved_response := some (pyStrip approved)
        approved_by := some "admin"
        approved_at := some ts
        used_model := some endpoint
        review_notes := some "" }
  (curNs ++ "/" ++ day ++ "/" ++ freshId ++ ".json", out)

/-- The review/export load pipeline as the code runs it (admin_app.py lines
348-352 and 444-448, new.py lines 268-273): date-filter the key list, cut it
to the row limit, load the survivors, and only then apply the keyword filter
(which is skipped when the keyword strips to empty). -/
def tab_review_pipeline (allKeys : List String) (d1 d2 : DateYMD) (keyword : String)
    (limit : Nat) (bucket : String) (fetch : String → Option Entry) : List Entry :=
  let cand := (filter_keys_by_date allKeys d1 d2).take limit
  let entries := load_entries bucket fetch cand
  if pyStrip keyword ≠ "" then filter_by_keyword entries keyword else entries

/-- Modelled from the claim wording of C1: the pipeline that date-filters,
loads, keyword-filters, and only then applies the row limit, so that the
result is the first N elements of the keyword-filtered, date-filtered
sequence. -/
def tab_review_pipeline_claim (allKeys : List String) (d1 d2 : DateYMD) (keyword : String)
    (limit : Nat) (bucket : String) (fetch : String → Option Entry) : List Entry :=
  ((filter_by_keyword
      (load_entries bucket fetch (filter_keys_by_date allKeys d1 d2)) keyword).take limit)

/-- Spec-side output selection for export (section 4.5 of the spec):
approved_response if non-empty, else ai_response. -/
def specOutput (e : Entry) : String :=
  if getS e.approved_response ≠ "" then getS e.approved_response else getS e.ai_response

/-- Spec-side retention test for export: the entry is kept when neither its
prompt nor its output is empty after trimming. -/
def keepEntry (e : Entry) : Bool :=
  !(pyStrip (getS e.prompt) == "") && !(pyStrip (specOutput e) == "")

/-- Spec-side formulation of to_training_pairs: one record per retained
entry, in input order. -/
def to_training_pairs_spec (entries : List Entry) : List J :=
  (entries.filter keepEntry).map
    (fun e => trainRecord (pyStrip (getS e.prompt)) (pyStrip (specOutput e)))

/-- Spec-side keyword match: the keyword occurs (case-insensitively) in at
least one of the four searched fields. -/
def specMatch (e : Entry) (kw : String) : Bool :=
  [getS e.prompt, getS e.ai_response, getS e.approved_response,
    getS e.review_notes].any (fun v => pyIn (pyLower kw) (pyLower v))

/-- Spec-side date-filter predicate: key_date is non-empty and lies in the
inclusive formatted range. -/
def specDateKeep (d1 d2 : DateYMD) (k : String) : Bool :=
  !(key_date k == "") && pyLe d1.fmt (key_date k) && pyLe (key_date k) d2.fmt

/-- A raw store for the pipeline-order scenario: two same-day submissions,
of which only the second matches the keyword "target". -/
def fetchC1 : String → Option Entry := fun k =>
  if k = "raw/2025-01-01/a.json" then some { Entry.empty with prompt := some "hello" }
  else if k = "raw/2025-01-01/b.json" then some { Entry.empty with prompt := some "target" }
  else none

/-- The tagged entry the pipeline-order scenario would keep if the row limit
were applied after the keyword filter. -/
def entryB : Entry :=
  { Entry.empty with
      prompt := some "target"
      tagBucket := some "rb"
      tagKey := some "raw/2025-01-01/b.json" }

/-- A raw submission record as stored (before loading). -/
def rawBase : Entry :=
  { Entry.empty with
      timestamp := some "2025-01-01T09:00:00Z"
      prompt := some "p"
      ai_response := some "r" }

/-- The same record as load_entries returns it: tagged with its origin. -/
def rawItem : Entry :=
  { rawBase with
      tagBucket := some "rawb"
      tagKey := some "raw/2025-01-01/abc123.json" }

/-- An entry whose prompt and ai_response fields only jointly contain the
substring "bc". -/
def entryAB : Entry :=
  { Entry.empty with
      prompt := some "ab"
      ai_response := some "cd" }

/- ------------------------------------------------------------------ -/
/- Helper lemmas                                                      -/
/- ------------------------------------------------------------------ -/

theorem strLeB_total (a b : List Char) : strLeB a b = true ∨ strLeB b a = true := by
  induction a generalizing b with
  | nil => cases b <;> simp [strLeB]
  | cons x xs ih =>
    cases b with
    | nil => simp [strLeB]
    | cons y ys =>
      simp only [strLeB]
      rcases Nat.lt_trichotomy x.toNat y.toNat with h | h | h
      · simp [h]
      · simp [h, Nat.lt_irrefl]
        exact ih ys
      · simp [h, Nat.lt_asymm h]

theorem strLeB_trans (a b c : List Char) (h1 : strLeB a b = true)
    (h2 : strLeB b c = true) : strLeB a c = true := by
  induction a generalizing b c with
  | nil => simp [strLeB]
  | cons x xs ih =>
    cases b with
    | nil => simp [strLeB] at h1
    | cons y ys =>
      cases c with
      | nil => simp [strLeB] at h2
      | cons z zs =>
        simp only [strLeB] at h1 h2 ⊢
        by_cases h1a : x.toNat < y.toNat
        · by_cases h2a : y.toNat < z.toNat
          · simp [Nat.lt_trans h1a h2a]
          · by_cases h2b : z.toNat < y.toNat
            · simp [h2a, h2b] at h2
            · have hxz : x.toNat < z.toNat := by omega
              simp [hxz]
        · by_cases h1b : y.toNat < x.toNat
          · simp [h1a, h1b] at h1
          · simp only [h1a, h1b, if_false] at h1
            by_cases h2a : y.toNat < z.toNat
            · have hxz : x.toNat < z.toNat := by omega
              simp [hxz]
            · by_cases h2b : z.toNat < y.toNat
              · simp [h2a, h2b] at h2
              · simp only [h2a, h2b, if_false] at h2
                have hnx : ¬ x.toNat < z.toNat := by omega
                have hnz : ¬ z.toNat < x.toNat := by omega
                simp only [hnx, hnz, if_false]
                exact ih ys zs h1 h2

instance : IsTotal String descLe :=
  ⟨fun a b => (strLeB_total b.data a.data).imp (fun h => h) (fun h => h)⟩

instance : IsTrans String descLe :=
  ⟨fun _ b _ hab hbc => strLeB_trans _ b.data _ hbc hab⟩

theorem filter_keys_by_date_eq_filter (keys : List String) (d1 d2 : DateYMD) :
    filter_keys_by_date keys d1 d2 = keys.filter (specDateKeep d1 d2) := by
  induction keys with
  | nil => rfl
  | cons k ks ih =>
    have hiff : specDateKeep d1 d2 k = true ↔
        (key_date k ≠ "" ∧ pyLe d1.fmt (key_date k) = true ∧
          pyLe (key_date k) d2.fmt = true) := by
      simp [specDateKeep, Bool.and_assoc]
    by_cases h : specDateKeep d1 d2 k = true
    · rw [show filter_keys_by_date (k :: ks) d1 d2 =
          k :: filter_keys_by_date ks d1 d2 by
            simp only [filter_keys_by_date]
            rw [if_pos (hiff.mp h)],
        List.filter_cons_of_pos h, ih]
    · rw [show filter_keys_by_date (k :: ks) d1 d2 =
          filter_keys_by_date ks d1 d2 by
            simp only [filter_keys_by_date]
            rw [if_neg (fun hc => h (hiff.mpr hc))],
        List.filter_cons_of_neg h, ih]

theorem key_date_eq (k : String) :
    key_date k =
      if 3 ≤ (pySplit k).length then (pySplit k).getD 1 "" else "" := by
  unfold key_date
  rcases pySplit k with _ | ⟨a, _ | ⟨b, _ | ⟨c, t⟩⟩⟩ <;> simp [List.getD]

theorem joinSlash_cons_cons (a b : String) (t : List String) :
    joinSlash (a :: b :: t) = a ++ "/" ++ joinSlash (b :: t) := rfl

theorem pyIn_empty_needle (v : String) : pyIn "" v = true := by
  unfold pyIn
  cases v.data <;> simp [infixOfL, startsWithL]

theorem pyOr_eq_specOutput (e : Entry) :
    pyOr e.approved_response (pyOr e.ai_response "") = specOutput e := by
  rcases h1 : e.approved_response with _ | s <;> rcases h2 : e.ai_response with _ | t <;>
    simp only [pyOr, specOutput, getS, h1, h2, Option.getD_some, Option.getD_none] <;>
    split_ifs <;> simp_all

theorem contains_keyword_eq (e : Entry) (kw : String) :
    contains_keyword e kw = ((kw == "") || specMatch e kw) := by
  by_cases h : kw = ""
  · subst h
    simp [contains_keyword]
  · simp [contains_keyword, specMatch, h, Bool.or_assoc]

theorem specMatch_empty_kw (e : Entry) : specMatch e "" = true := by
  simp [specMatch, pyIn_empty_needle, show pyLower "" = "" from rfl]

theorem mem_load_entries (bucket : String) (fetch : String → Option Entry)
    (keys : List String) (e : Entry) (he : e ∈ load_entries bucket fetch keys) :
    e.tagBucket = some bucket ∧ ∃ k, k ∈ keys ∧ e.tagKey = some k := by
  induction keys with
  | nil => simp [load_entries] at he
  | cons k ks ih =>
    simp only [load_entries] at he
    rcases hf : fetch k with _ | d
    · rw [hf] at he
      obtain ⟨h1, k2, hk2, h2⟩ := ih he
      exact ⟨h1, k2, List.mem_cons_of_mem _ hk2, h2⟩
    · rw [hf] at he
      rcases List.mem_cons.mp he with rfl | hmem
      · exact ⟨rfl, k, List.mem_cons_self _ _, rfl⟩
      · obtain ⟨h1, k2, hk2, h2⟩ := ih hmem
        exact ⟨h1, k2, List.mem_cons_of_mem _ hk2, h2⟩

/- ------------------------------------------------------------------ -/
/- Claim theorems                                                     -/
/- ------------------------------------------------------------------ -/

/-- Claim C4: to_jsonl_lines computes the output as approved_response when
non-empty else ai_response, skips exactly the entries whose prompt or output
is empty after trimming, emits one two-turn record per retained entry, and
preserves input order: it equals the spec-side filter-then-map formulation. -/
theorem C4_training_pairs (entries : List Entry) :
    to_jsonl_lines entries = to_training_pairs_spec entries := by
  induction entries with
  | nil => rfl
  | cons e rest ih =>
    simp only [to_jsonl_lines, to_training_pairs_spec, pyOr_eq_specOutput]
    by_cases hk : keepEntry e = true
    · have h1 : ¬ (pyStrip (getS e.prompt) = "" ∨ pyStrip (specOutput e) = "") := by
        simp only [keepEntry, Bool.and_eq_true, Bool.not_eq_true', beq_eq_false_iff_ne,
          ne_eq] at hk
        tauto
      rw [if_neg h1, List.filter_cons_of_pos hk, List.map_cons]
      rw [to_training_pairs_spec] at ih
      exact congrArg _ ih
    · have h1 : pyStrip (getS e.prompt) = "" ∨ pyStrip (specOutput e) = "" := by
        simp only [keepEntry, Bool.and_eq_true, Bool.not_eq_true', beq_eq_false_iff_ne,
          ne_eq] at hk
        tauto
      rw [if_pos h1, List.filter_cons_of_neg (by simp [hk])]
      rw [to_training_pairs_spec] at ih
      exact ih

/-- Claim C5: on a raw key with at least three slash-delimited segments,
curated_key_from_raw replaces exactly the first segment by the curated
namespace (preserving the date segment and the filename, i.e. the whole
remainder of the key); on a raw key with fewer than three segments it mints
a fresh key from the current UTC day and a fresh id, reusing nothing of the
input (the result does not depend on the raw key at all). -/
theorem C5_curated_key (curNs raw today freshId : String) :
    (3 ≤ (pySplit raw).length →
      curated_key_from_raw curNs raw today freshId =
        joinSlash (curNs :: (pySplit raw).drop 1)) ∧
    ((pySplit raw).length < 3 →
      curated_key_from_raw curNs raw today freshId =
        curNs ++ "/" ++ today ++ "/" ++ freshId ++ ".json") := by
  constructor
  · intro h
    rcases hp : pySplit raw with _ | ⟨a, _ | ⟨b, _ | ⟨c, t⟩⟩⟩ <;> rw [hp] at h <;>
      simp only [List.length_nil, List.length_cons] at h
    · omega
    · omega
    · omega
    · unfold curated_key_from_raw pySplit2
      rw [hp]
      by_cases ht : t = []
      · subst ht
        simp [joinSlash, String.append_assoc, List.getD]
      · have hlen : ¬ (a :: b :: c :: t).length ≤ 3 := by
          have : 1 ≤ t.length := List.length_pos.mpr ht
          simp only [List.length_cons]
          omega
        rw [if_neg hlen]
        simp [List.getD, joinSlash_cons_cons, String.append_assoc]
  · intro h
    unfold curated_key_from_raw pySplit2
    rw [if_pos (by omega : (pySplit raw).length ≤ 3), if_neg (by omega)]

/-- Claim C6: filter_keys_by_date keeps exactly the keys whose key_date is
non-empty and lies in the inclusive strftime-formatted range under string
comparison, and key_date is total: it is the second slash-delimited segment
when the key has at least three segments and the empty string otherwise. -/
theorem C6_date_filter (keys : List String) (d1 d2 : DateYMD) (h : d1.le d2) :
    filter_keys_by_date keys d1 d2 = keys.filter (specDateKeep d1 d2) ∧
    ∀ k, key_date k =
      if 3 ≤ (pySplit k).length then (pySplit k).getD 1 "" else "" :=
  ⟨filter_keys_by_date_eq_filter keys d1 d2, key_date_eq⟩

/-- Witness for C6 at a concrete key list and date range. -/
theorem C6_witness :
    DateYMD.le ⟨2025, 1, 1⟩ ⟨2025, 1, 3⟩ ∧
    filter_keys_by_date ["p/2025-01-02/a.json", "p/2025-01-05/b.json", "bad"]
        ⟨2025, 1, 1⟩ ⟨2025, 1, 3⟩ =
      List.filter (specDateKeep ⟨2025, 1, 1⟩ ⟨2025, 1, 3⟩)
        ["p/2025-01-02/a.json", "p/2025-01-05/b.json", "bad"] :=
  ⟨by decide, (C6_date_filter _ ⟨2025, 1, 1⟩ ⟨2025, 1, 3⟩ (by decide)).1⟩

/-- Claim C10: filter_keys_by_date returns an order-preserving subsequence
of its input and is idempotent for a fixed date range. -/
theorem C10_sublist_idempotent (keys : List String) (d1 d2 : DateYMD) :
    (filter_keys_by_date keys d1 d2).Sublist keys ∧
    filter_keys_by_date (filter_keys_by_date keys d1 d2) d1 d2 =
      filter_keys_by_date keys d1 d2 := by
  constructor
  · rw [filter_keys_by_date_eq_filter]
    exact List.filter_sublist keys
  · simp [filter_keys_by_date_eq_filter, List.filter_filter, Bool.and_self]

/-- Witness for C5: a well-formed raw key is re-parented, a malformed raw
key gets a freshly minted key. -/
theorem C5_witness :
    (3 ≤ (pySplit "raw/2025-08-26/a1b2c3d4e5.json").length ∧
      curated_key_from_raw "curated" "raw/2025-08-26/a1b2c3d4e5.json"
          "2025-10-12" "ffff000011" =
        joinSlash ("curated" :: (pySplit "raw/2025-08-26/a1b2c3d4e5.json").drop 1)) ∧
    ((pySplit "malformed").length < 3 ∧
      curated_key_from_raw "curated" "malformed" "2025-10-12" "ffff000011" =
        "curated" ++ "/" ++ "2025-10-12" ++ "/" ++ "ffff000011" ++ ".json") :=
  ⟨⟨by decide, (C5_curated_key "curated" "raw/2025-08-26/a1b2c3d4e5.json"
      "2025-10-12" "ffff000011").1 (by decide)⟩,
   ⟨by decide, (C5_curated_key "curated" "malformed"
      "2025-10-12" "ffff000011").2 (by decide)⟩⟩

/-- Counterexample to claim C1: in the code the row limit is applied to the
date-filtered key list before the keyword filter, so with a limit of 1 and
two same-day submissions, of which only the lexically later one matches the
keyword, the pipeline returns nothing, whereas limiting last (as the claim
states) would return the matching entry. -/
theorem C1_counterexample :
    tab_review_pipeline ["raw/2025-01-01/a.json", "raw/2025-01-01/b.json"]
        ⟨2025, 1, 1⟩ ⟨2025, 1, 1⟩ "target" 1 "rb" fetchC1 = [] ∧
    tab_review_pipeline_claim ["raw/2025-01-01/a.json", "raw/2025-01-01/b.json"]
        ⟨2025, 1, 1⟩ ⟨2025, 1, 1⟩ "target" 1 "rb" fetchC1 = [entryB] ∧
    tab_review_pipeline ["raw/2025-01-01/a.json", "raw/2025-01-01/b.json"]
        ⟨2025, 1, 1⟩ ⟨2025, 1, 1⟩ "target" 1 "rb" fetchC1 ≠
      tab_review_pipeline_claim ["raw/2025-01-01/a.json", "raw/2025-01-01/b.json"]
        ⟨2025, 1, 1⟩ ⟨2025, 1, 1⟩ "target" 1 "rb" fetchC1 := by
  refine ⟨by decide, by decide, by decide⟩

/-- Amended claim C1: the date filter is applied first, then the
caller-imposed row limit on the key list, and the keyword filter is applied
last, to the loaded entries only (and skipped entirely when the keyword
strips to whitespace): the result equals keyword-filtering the loaded first
N date-filtered keys, not the first N of the keyword-filtered sequence. -/
theorem C1_limit_before_keyword (allKeys : List String) (d1 d2 : DateYMD)
    (kw : String) (n : Nat) (bucket : String) (fetch : String → Option Entry) :
    tab_review_pipeline allKeys d1 d2 kw n bucket fetch =
      (load_entries bucket fetch ((filter_keys_by_date allKeys d1 d2).take n)).filter
        (fun e => (pyStrip kw == "") || contains_keyword e kw) := by
  unfold tab_review_pipeline filter_by_keyword
  by_cases h : pyStrip kw = ""
  · simp [h, List.filter_true]
  · have hb : (pyStrip kw == "") = false := by simp [h]
    simp [h, hb]

/-- Counterexample to claim C2: the save action performs no validation of
the approved text; with a whitespace-only approved text the record is still
persisted, with approved_response set to the empty string. -/
theorem C2_counterexample :
    pyStrip "   " = "" ∧
    (tab_review_save rawItem "   " "note" "2025-01-02T00:00:00Z" "curated"
        "2025-01-02" "ffff000011").2.approved_response = some "" ∧
    (tab_review_save rawItem "   " "note" "2025-01-02T00:00:00Z" "curated"
        "2025-01-02" "ffff000011").1 = "curated/2025-01-01/abc123.json" := by
  refine ⟨by decide, by decide, by decide⟩

/-- Amended claim C2: the approve/save operations of both tabs perform no
emptiness validation: for every approved_text that trims to empty the write
still happens, persisting a record whose approved_response is the empty
string. -/
theorem C2_no_validation (item : Entry)
    (s notes ts curNs today freshId prompt ai endpoint day fid2 : String)
    (h : pyStrip s = "") :
    (tab_review_save item s notes ts curNs today freshId).2.approved_response =
      some "" ∧
    (tab_gen_save prompt ai s endpoint ts day fid2 curNs).2.approved_response =
      some "" := by
  constructor <;> simp [tab_review_save, tab_gen_save, h]

/-- Witness for C2 at a whitespace-only approved text. -/
theorem C2_witness :
    (tab_review_save rawItem " " "n" "t" "curated" "D" "I").2.approved_response =
      some "" ∧
    (tab_gen_save "p" "a" " " "ep" "t" "D" "I" "curated").2.approved_response =
      some "" :=
  C2_no_validation rawItem " " "n" "t" "curated" "D" "I" "p" "a" "ep" "D" "I"
    (by decide)

/-- Counterexample to claim C3: the record the review save persists is built
by spreading the loaded item, so the origin-tag fields added by load_entries
("_bucket" and "_key") are carried into the persisted curated record. -/
theorem C3_counterexample :
    load_entries "rawb" (fun _ => some rawBase) ["raw/2025-01-01/abc123.json"] =
      [rawItem] ∧
    (tab_review_save rawItem "r2" "ok" "ts" "curated" "D" "I").2.tagBucket =
      some "rawb" ∧
    (tab_review_save rawItem "r2" "ok" "ts" "curated" "D" "I").2.tagKey =
      some "raw/2025-01-01/abc123.json" := by
  refine ⟨by decide, by decide, by decide⟩

/-- Amended claim C3: the persisted curated record carries, besides the Entry
schema fields, the origin-tag fields of the loaded item: _bucket and _key
survive the spread and equal the origin bucket and key, and they are also
copied into source_raw_bucket and source_raw_key. -/
theorem C3_tags_persisted (bucket : String) (fetch : String → Option Entry)
    (keys : List String) (item : Entry)
    (h : item ∈ load_entries bucket fetch keys)
    (s notes ts curNs today freshId : String) :
    (tab_review_save item s notes ts curNs today freshId).2.tagBucket =
      some bucket ∧
    ∃ k, k ∈ keys ∧
      (tab_review_save item s notes ts curNs today freshId).2.tagKey = some k ∧
      (tab_review_save item s notes ts curNs today freshId).2.source_raw_bucket =
        some bucket ∧
      (tab_review_save item s notes ts curNs today freshId).2.source_raw_key =
        some k := by
  obtain ⟨h1, k, hk, h2⟩ := mem_load_entries bucket fetch keys item h
  exact ⟨by simp [tab_review_save, h1], k, hk, by simp [tab_review_save, h2],
    by simp [tab_review_save, h1], by simp [tab_review_save, h2]⟩

/-- Witness for C3 at a concrete loaded item. -/
theorem C3_witness :
    (tab_review_save rawItem "r2" "ok" "ts" "curated" "D" "I").2.tagBucket =
      some "rawb" :=
  (C3_tags_persisted "rawb" (fun _ => some rawBase) ["raw/2025-01-01/abc123.json"]
    rawItem (by decide) "r2" "ok" "ts" "curated" "D" "I").1

/-- Counterexample to claim C7: the keyword search is per-field, not over the
concatenation of the four fields: the keyword "bc" occurs in the
concatenation of prompt "ab" and ai_response "cd" but in none of the fields
individually, and the entry is dropped. -/
theorem C7_counterexample :
    pyIn (pyLower "bc")
        (pyLower (getS entryAB.prompt ++ getS entryAB.ai_response ++
          getS entryAB.approved_response ++ getS entryAB.review_notes)) = true ∧
    contains_keyword entryAB "bc" = false ∧
    filter_by_keyword [entryAB] "bc" = [] := by
  refine ⟨by decide, by decide, by decide⟩

/-- Amended claim C7: filter_by_keyword keeps exactly the entries for which
the keyword is a case-insensitive substring of at least one of the four
fields prompt, ai_response, approved_response, review_notes (missing fields
read as empty); the empty keyword keeps every entry, and a keyword matching
no field of any entry yields the empty sequence. -/
theorem C7_keyword_filter (entries : List Entry) (kw : String) :
    filter_by_keyword entries kw =
      entries.filter (fun e => (kw == "") || specMatch e kw) ∧
    (kw = "" → filter_by_keyword entries kw = entries) ∧
    ((∀ e ∈ entries, specMatch e kw = false) → filter_by_keyword entries kw = []) := by
  have hmain : filter_by_keyword entries kw =
      entries.filter (fun e => (kw == "") || specMatch e kw) := by
    unfold filter_by_keyword
    exact List.filter_congr (fun e _ => contains_keyword_eq e kw)
  refine ⟨hmain, ?_, ?_⟩
  · intro hk
    subst hk
    rw [hmain]
    simp [List.filter_true]
  · intro hnone
    rw [hmain, List.filter_eq_nil_iff]
    intro e he
    by_cases hk : kw = ""
    · subst hk
      exact absurd (specMatch_empty_kw e) (by simp [hnone e he])
    · simp [hk, hnone e he]

/-- Witness for C7: empty-keyword identity and all-miss emptiness at a
concrete entry list. -/
theorem C7_witness :
    filter_by_keyword [entryAB] "" = [entryAB] ∧
    filter_by_keyword [entryAB] "zzz" = [] :=
  ⟨(C7_keyword_filter [entryAB] "").2.1 rfl,
   (C7_keyword_filter [entryAB] "zzz").2.2 (by decide)⟩

/-- Counterexample to claim C8: the new.py variant of list_keys has no
try/except around the store call, so a listing failure propagates to the
caller as an exception instead of degrading to an empty sequence with a
warning. -/
theorem C8_counterexample :
    list_keys_new "bucket" "ns" (Except.error "unreachable") =
      Except.error "unreachable" ∧
    list_keys_new "bucket" "ns" (Except.error "unreachable") ≠
      Except.ok [] :=
  ⟨rfl, fun hc => Except.noConfusion hc⟩

/-- Amended claim C8: both variants return only keys ending in ".json",
sorted in descending lexical order; on a listing failure the admin_app
variant returns the empty sequence together with a surfaced warning, while
the new.py variant propagates the exception. -/
theorem C8_list_keys (bucket ns : String) (blobs : List String) (err : String)
    (hb : bucket ≠ "") (hn : ns ≠ "") :
    (∀ k ∈ (list_keys bucket ns (Except.ok blobs)).1,
      pyEndsWith k ".json" = true) ∧
    List.Sorted descLe (list_keys bucket ns (Except.ok blobs)).1 ∧
    (list_keys bucket ns (Except.ok blobs)).2 = none ∧
    list_keys bucket ns (Except.error err) = ([], some err) ∧
    list_keys_new bucket ns (Except.ok blobs) =
      Except.ok (list_keys bucket ns (Except.ok blobs)).1 ∧
    list_keys_new bucket ns (Except.error err) = Except.error err := by
  have hcond : ¬ (bucket = "" ∨ ns = "") := by tauto
  simp only [list_keys, list_keys_new, if_neg hcond]
  refine ⟨?_, ?_, trivial, trivial, trivial, trivial⟩
  · intro k hk
    have hmem : k ∈ blobs.filter (fun n => pyEndsWith n ".json") :=
      (List.perm_insertionSort descLe _).mem_iff.mp hk
    exact (List.mem_filter.mp hmem).2
  · exact List.sorted_insertionSort descLe _

/-- Witness for C8 at a concrete bucket, namespace, listing and error. -/
theorem C8_witness :
    List.Sorted descLe
      (list_keys "b" "p" (Except.ok ["p/1.json", "x.txt", "p/2.json"])).1 ∧
    list_keys "b" "p" (Except.error "E") = ([], some "E") ∧
    list_keys_new "b" "p" (Except.error "E") = Except.error "E" := by
  have h := C8_list_keys "b" "p" ["p/1.json", "x.txt", "p/2.json"] "E"
    (by decide) (by decide)
  exact ⟨h.2.1, h.2.2.2.1, h.2.2.2.2.2⟩

/-- Claim C9: call_model collects the streaming chunks first; the
non-streaming fallback request is issued at most once, and exactly when the
collected stream text is empty (in particular never when the stream yielded
usable text, even if it then raised); the caller sees only the final
(text, metadata) outcome, and a fallback failure surfaces as a failure, not
as a silent empty result. -/
theorem C9_call_model (delivered : List (Option String)) (raised : Bool)
    (fallback : Except String (String × Bool × String)) :
    (call_model delivered raised fallback).2 ≤ 1 ∧
    ((call_model delivered raised fallback).2 = 1 ↔ streamText delivered = "") ∧
    (streamText delivered ≠ "" →
      call_model delivered raised fallback =
        (Except.ok (streamText delivered, ⟨false, ""⟩), 0)) ∧
    (∀ err, fallback = Except.error err → streamText delivered = "" →
      (call_model delivered raised fallback).1 = Except.error err) ∧
    (∀ t b r, fallback = Except.ok (t, b, r) → streamText delivered = "" →
      (call_model delivered raised fallback).1 = Except.ok (t, ⟨b, r⟩)) := by
  cases fallback with
  | error err2 =>
    by_cases h : streamText delivered = ""
    · refine ⟨?_, ?_, ?_, ?_, ?_⟩ <;> simp [call_model, h]
    · refine ⟨?_, ?_, ?_, ?_, ?_⟩ <;> simp [call_model, h]
  | ok p =>
    obtain ⟨t, b, r⟩ := p
    by_cases h : streamText delivered = ""
    · refine ⟨?_, ?_, ?_, ?_, ?_⟩ <;> simp [call_model, h]
    · refine ⟨?_, ?_, ?_, ?_, ?_⟩ <;> simp [call_model, h]

/-- Witness for C9: a non-empty stream short-circuits the fallback; an empty
stream surfaces the fallback failure. -/
theorem C9_witness :
    call_model [some "hi"] true (Except.error "E") =
      (Except.ok ("hi", ⟨false, ""⟩), 0) ∧
    (call_model [] false (Except.error "E")).1 = Except.error "E" :=
  ⟨(C9_call_model [some "hi"] true (Except.error "E")).2.2.1 (by decide),
   (C9_call_model [] false (Except.error "E")).2.2.2.1 "E" rfl (by decide)⟩

end FeedbackPipeline
